import Mathlib

/-!
Shallow embedding of the stopwatch widget (src/main.rs).

Timestamps are modelled as natural numbers of seconds since the Unix epoch.
The GUI layer (iced) is treated as a black box: we model the data the state
machine hands to it (the timer widget contents, the highlight color), and we
model a Rust panic from `.unwrap()` as `Option.none`.
-/

/-- A color as produced by `iced::Color::from_rgb8` (8-bit channels). -/
structure Color where
  r : Nat
  g : Nat
  b : Nat
deriving DecidableEq

/-- `iced::Color::from_rgb8`. -/
def Color.from_rgb8 (r g b : Nat) : Color := ⟨r, g, b⟩

/-- The process-wide `WarnSettings` (main.rs lines 93-99): thresholds in
seconds. The `OnceLock` global is modelled by passing the value explicitly. -/
structure WarnSettings where
  warn_after : Nat
  danger_after : Nat
deriving DecidableEq

/-- The `Config` struct (main.rs lines 16-26). The window geometry floats are
carried opaquely; they never enter the state machine. -/
structure Config where
  warn_after_minutes : Nat
  danger_after_minutes : Nat
  window_size : Float × Float
  window_position : Float × Float
  always_on_top : Bool
  start_unpaused : Bool
  store_last_session : Bool

/-- `Config::default` (main.rs lines 28-40). -/
def Config.default : Config :=
  { warn_after_minutes := 45
  , danger_after_minutes := 60
  , window_size := (150, 80)
  , window_position := (40, 40)
  , always_on_top := false
  , start_unpaused := false
  , store_last_session := true }

/-- The `WarnSettings` value installed by `main` (main.rs lines 46-51):
minutes scaled to seconds. -/
def warn_settings_of_config (cfg : Config) : WarnSettings :=
  { warn_after := cfg.warn_after_minutes * 60
  , danger_after := cfg.danger_after_minutes * 60 }

/-- The `WarnSettings` resulting from the default configuration. -/
def defaultWarnSettings : WarnSettings := warn_settings_of_config Config.default

/-- `Session` (main.rs lines 101-106): one closed interval, `start` and `end`
in seconds since the Unix epoch. -/
structure Session where
  pause : Bool
  start : Nat
  «end» : Nat
deriving DecidableEq

/-- `Session::new` (main.rs lines 108-122): `start` is the anchor timestamp
passed in, `end` is the current time; both converted to epoch seconds. -/
def Session.new (pause : Bool) (start now : Nat) : Session :=
  { pause := pause, start := start, «end» := now }

/-- `State` (main.rs lines 86-91): the live timer state. `start` is the anchor
of the currently open interval. -/
structure State where
  paused : Bool
  start : Nat
  sessions : List Session
deriving DecidableEq

/-- `State::default` (main.rs lines 130-138): paused, anchor = now, no
sessions. -/
def State.default (now : Nat) : State :=
  { paused := true, start := now, sessions := [] }

/-- The state constructed at process start by `main` (main.rs line 44):
`let state = State::default();` — the configuration is loaded but not
consulted when building the state. -/
def initial_state (_cfg : Config) (now : Nat) : State :=
  State.default now

/-- `Message` (main.rs lines 124-128). -/
inductive Message where
  | Toggle : Message
  | Refresh : Message
deriving DecidableEq

/-- `State::toggle_pause` (main.rs lines 198-208), state mutation only:
push `Session::new(self.paused, self.start)`, reset the anchor when the state
was paused, flip the flag. (The default build's `store_sessions` is a no-op
returning `Ok(())`; its outcome is modelled separately below.) -/
def State.toggle_pause (st : State) (now : Nat) : State :=
  { paused := !st.paused
  , start := if st.paused then now else st.start
  , sessions := st.sessions ++ [Session.new st.paused st.start now] }

/-- `State::update` (main.rs lines 141-146): `Toggle` toggles, any other
message (`Refresh`) does nothing. -/
def State.update (st : State) (now : Nat) (m : Message) : State :=
  match m with
  | Message.Toggle => st.toggle_pause now
  | Message.Refresh => st

/-- The pause count computed in `State::view` (main.rs line 173):
`self.sessions.iter().filter(|s| s.pause).count()`. -/
def State.pause_count (st : State) : Nat :=
  (st.sessions.filter (fun s => s.pause)).length

/-- `SystemTime::duration_since` in seconds: `Err` (here `none`) when the
argument is later than `now`. -/
def duration_since (now earlier : Nat) : Option Nat :=
  if earlier ≤ now then some (now - earlier) else none

/-- Two-digit zero padding, the behaviour of Rust `format!("{:02}", n)`:
numbers below 10 get a leading zero, larger numbers print as-is. -/
def pad2 (n : Nat) : String :=
  if n < 10 then "0" ++ toString n else toString n

/-- `format_text` (main.rs lines 211-221). -/
def format_text (seconds : Nat) (full : Bool) : String :=
  let hours := seconds / 3600
  let minutes := (seconds % 3600) / 60
  let secs := seconds % 60
  if hours ≠ 0 ∨ full = true then
    pad2 hours ++ ":" ++ pad2 minutes ++ ":" ++ pad2 secs
  else
    pad2 minutes ++ ":" ++ pad2 secs

/-- `highlight_col` (main.rs lines 223-240), with the `WARN_SETTINGS` global
passed explicitly. -/
def highlight_col (ws : WarnSettings) (seconds : Nat) : Color :=
  if ws.danger_after = 0 ∧ ws.warn_after = 0 then
    Color.from_rgb8 0 0 0
  else if seconds > ws.danger_after then
    Color.from_rgb8 255 0 0
  else if seconds > ws.warn_after then
    Color.from_rgb8 255 255 0
  else
    Color.from_rgb8 0 255 0

/-- The timer widget built by `State::view` (main.rs lines 148-166): either
the static `button("PAUSED")` or a colored formatted elapsed-time label. -/
inductive TimerWidget where
  | pausedButton : TimerWidget
  | timeButton : String → Color → TimerWidget
deriving DecidableEq

/-- The timer part of `State::view` (main.rs lines 148-166). When running, the
code computes `SystemTime::now().duration_since(self.start).unwrap()`;
the `.unwrap()` panics when `now < self.start`, modelled as `none`. -/
def State.view_timer (st : State) (ws : WarnSettings) (now : Nat) : Option TimerWidget :=
  if st.paused then
    some TimerWidget.pausedButton
  else
    match duration_since now st.start with
    | none => none
    | some t => some (TimerWidget.timeButton (format_text t false) (highlight_col ws t))

/-- `store_sessions` of the default build (main.rs lines 273-276, feature
`store_sessions` disabled): always succeeds. -/
def store_sessions (_sessions : List Session) : Except String Unit :=
  Except.ok ()

/-- `State::toggle_pause` (main.rs lines 198-208) including the persistence
call of the `store_sessions` build. The file-I/O outcome is abstracted as
`storeResult`; the second component is the line printed to stderr, if any.
The state mutation happens before the persistence call and is kept whatever
the result is (`Err` only logs). -/
def State.toggle_pause_logged (st : State) (now : Nat)
    (storeResult : Except String Unit) : State × Option String :=
  let st' := st.toggle_pause now
  match storeResult with
  | Except.ok _ => (st', none)
  | Except.error e => (st', some ("Failed to store sessions: " ++ e))

/-- Specification-side renderer, written from the spec's words (section 4.2):
`MM:SS`, or `HH:MM:SS` when `hours != 0` or `force_hours` is set, every field
two-digit zero-padded. For comparison with `format_text`. -/
def format_elapsed_spec (seconds : Nat) (force_hours : Bool) : String :=
  let hours := seconds / 3600
  let minutes := seconds / 60 % 60
  let secs := seconds % 60
  if hours = 0 ∧ force_hours = false then
    pad2 minutes ++ ":" ++ pad2 secs
  else
    pad2 hours ++ ":" ++ pad2 minutes ++ ":" ++ pad2 secs

/-- A running state whose anchor lies 1 second in the future of the clock,
i.e. the clock was stepped back after the run started. -/
def runningSkewState : State := { paused := false, start := 1, sessions := [] }

/-- C1: with the stopwatch Running and the wall clock 1 second earlier than
the anchor, `State::view` does NOT clamp elapsed to 0: the
`duration_since(..).unwrap()` call panics, modelled here as `none`. This
refutes the claim that the elapsed computation never panics and reports 0. -/
theorem view_timer_clock_skew_panics :
    runningSkewState.view_timer defaultWarnSettings 0 = none := by
  decide

/-- C2: `toggle_pause` appends exactly one session recording the pre-toggle
paused flag, the anchor as start and the current time as end; the anchor is
reset to now exactly when the state was paused; the paused flag is flipped. -/
theorem toggle_pause_spec (st : State) (now : Nat) :
    (st.toggle_pause now).sessions
      = st.sessions ++ [{ pause := st.paused, start := st.start, «end» := now }] ∧
    (st.toggle_pause now).start = (if st.paused then now else st.start) ∧
    (st.toggle_pause now).paused = !st.paused :=
  ⟨rfl, rfl, rfl⟩

/-- C3 counterexample: from the initial paused state with no sessions, after
three toggles the pause count is NOT 1 (the first and third toggles both
close pause intervals, so it is 2). -/
theorem pause_count_three_toggles_ne_one :
    ((((State.default 0).toggle_pause 1).toggle_pause 2).toggle_pause 3).pause_count ≠ 1 := by
  decide

/-- C3 amended: from the initial paused state, after the sequence
[toggle, toggle, toggle] the pause count equals 2, for any toggle times. -/
theorem pause_count_three_toggles_eq_two (t0 t1 t2 t3 : Nat) :
    ((((State.default t0).toggle_pause t1).toggle_pause t2).toggle_pause t3).pause_count = 2 :=
  rfl

/-- A configuration identical to the default except `start_unpaused = true`. -/
def cfgStartUnpaused : Config := { Config.default with start_unpaused := true }

/-- C4 counterexample: even with `start_unpaused = true` in the configuration,
the state built at process start has `paused = true` — `main` never consults
the flag — refuting the claim that it starts unpaused in that case. -/
theorem initial_state_ignores_start_unpaused :
    cfgStartUnpaused.start_unpaused = true ∧
    (initial_state cfgStartUnpaused 0).paused = true ∧
    ¬((initial_state cfgStartUnpaused 0).paused = false) := by
  exact ⟨rfl, rfl, by decide⟩

/-- C4 amended: the state created at process start always has `paused = true`
regardless of the configuration, with `anchor = now` and no sessions. -/
theorem initial_state_spec (cfg : Config) (now : Nat) :
    initial_state cfg now = { paused := true, start := now, sessions := [] } :=
  rfl

/-- C5: with both thresholds zero the color is neutral black for any seconds;
otherwise red strictly above `danger_after`, yellow strictly above
`warn_after` up to `danger_after`, green at or below `warn_after` (for
well-formed thresholds `warn_after ≤ danger_after`); boundary values are not
escalated, as in the 2700/3600 examples. -/
theorem highlight_col_spec (ws : WarnSettings) (s : Nat) :
    (ws.warn_after = 0 → ws.danger_after = 0 →
      highlight_col ws s = Color.from_rgb8 0 0 0) ∧
    (¬(ws.warn_after = 0 ∧ ws.danger_after = 0) →
      (ws.danger_after < s → highlight_col ws s = Color.from_rgb8 255 0 0) ∧
      (ws.warn_after < s → s ≤ ws.danger_after →
        highlight_col ws s = Color.from_rgb8 255 255 0) ∧
      (ws.warn_after ≤ ws.danger_after → s ≤ ws.warn_after →
        highlight_col ws s = Color.from_rgb8 0 255 0)) ∧
    highlight_col ⟨2700, 3600⟩ 2700 = Color.from_rgb8 0 255 0 ∧
    highlight_col ⟨2700, 3600⟩ 2701 = Color.from_rgb8 255 255 0 ∧
    highlight_col ⟨2700, 3600⟩ 3600 = Color.from_rgb8 255 255 0 ∧
    highlight_col ⟨2700, 3600⟩ 3601 = Color.from_rgb8 255 0 0 := by
  refine ⟨?_, ?_, by decide, by decide, by decide, by decide⟩
  · intro hw hd
    unfold highlight_col
    split_ifs with h1 <;> first | rfl | (exfalso; omega)
  · intro hne
    refine ⟨?_, ?_, ?_⟩
    · intro h
      unfold highlight_col
      split_ifs <;> first | rfl | (exfalso; omega)
    · intro h h'
      unfold highlight_col
      split_ifs <;> first | rfl | (exfalso; omega)
    · intro h h'
      unfold highlight_col
      split_ifs <;> first | rfl | (exfalso; omega)

/-- C5 witness: at thresholds 2700/3600 and 3601 seconds the hypotheses hold
and the color is red. -/
theorem highlight_col_spec_witness :
    highlight_col ⟨2700, 3600⟩ 3601 = Color.from_rgb8 255 0 0 :=
  ((highlight_col_spec ⟨2700, 3600⟩ 3601).2.1 (by decide)).1 (by decide)

/-- C6: `format_text` renders exactly what the spec's `format_elapsed`
describes — `MM:SS` when the hour field is zero and hours are not forced,
`HH:MM:SS` otherwise, two-digit zero-padded — and matches the three concrete
examples. -/
theorem format_text_spec :
    (∀ (s : Nat) (full : Bool), format_text s full = format_elapsed_spec s full) ∧
    format_text 125 false = "02:05" ∧
    format_text 3725 false = "01:02:05" ∧
    format_text 5 true = "00:00:05" := by
  refine ⟨?_, by decide, by decide, by decide⟩
  intro s full
  have hm : s % 3600 / 60 = s / 60 % 60 := by omega
  by_cases h : s / 3600 = 0 <;> cases full <;>
    simp [format_text, format_elapsed_spec, h, hm]

/-- C7: the toggle completes whatever the persistence outcome is — the
resulting state equals the pure `toggle_pause` result (session appended,
paused flag flipped), with no rollback on `Err`; an error only produces a
stderr log line. -/
theorem toggle_persistence_no_rollback (st : State) (now : Nat)
    (r : Except String Unit) :
    (st.toggle_pause_logged now r).1 = st.toggle_pause now ∧
    (st.toggle_pause_logged now r).1.sessions
      = st.sessions ++ [Session.new st.paused st.start now] ∧
    (st.toggle_pause_logged now r).1.paused = !st.paused := by
  cases r <;> exact ⟨rfl, rfl, rfl⟩

/-- C8 counterexample: when the clock has stepped back behind the anchor
(anchor 1, now 0), `toggle_pause` stores a session with `end < start` —
`Session::new` computes `start` from the anchor and `end` from the current
time with no ordering check — refuting the unconditional claim that every
Session satisfies `end >= start` at creation. -/
theorem session_invariant_violated_on_skew :
    ((State.mk true 1 ([] : List Session)).toggle_pause 0).sessions
      = [Session.new true 1 0] ∧
    ¬(Session.new true 1 0).start ≤ (Session.new true 1 0).«end» := by
  decide

/-- C8 amended: the session log is append-only — toggling leaves the previous
log as a prefix, appending one session, and a refresh leaves the log
untouched; the appended session satisfies `end >= start` whenever the current
time is not earlier than the anchor (under a backwards clock step the code
silently records `end < start`). -/
theorem sessions_append_only (st : State) (now : Nat) (h : st.start ≤ now) :
    (st.toggle_pause now).sessions
      = st.sessions ++ [Session.new st.paused st.start now] ∧
    (Session.new st.paused st.start now).start
      ≤ (Session.new st.paused st.start now).«end» ∧
    (st.update now Message.Refresh).sessions = st.sessions :=
  ⟨rfl, h, rfl⟩

/-- C8 witness: the append-only property at the initial state and time 1. -/
theorem sessions_append_only_witness :
    ((State.default 0).toggle_pause 1).sessions
      = (State.default 0).sessions
        ++ [Session.new (State.default 0).paused (State.default 0).start 1] ∧
    (Session.new (State.default 0).paused (State.default 0).start 1).start
      ≤ (Session.new (State.default 0).paused (State.default 0).start 1).«end» ∧
    ((State.default 0).update 1 Message.Refresh).sessions
      = (State.default 0).sessions :=
  sessions_append_only (State.default 0) 1 (by decide)

/-- C9: a Refresh message mutates nothing; when running (and the clock is at
or past the anchor) the view shows the formatted, colored `now - anchor`;
when paused it shows the static PAUSED button. -/
theorem tick_pure (st : State) (ws : WarnSettings) (now : Nat) :
    st.update now Message.Refresh = st ∧
    (st.paused = false → st.start ≤ now →
      st.view_timer ws now
        = some (TimerWidget.timeButton (format_text (now - st.start) false)
            (highlight_col ws (now - st.start)))) ∧
    (st.paused = true → st.view_timer ws now = some TimerWidget.pausedButton) := by
  refine ⟨rfl, ?_, ?_⟩
  · intro hp hle
    simp [State.view_timer, duration_since, hp, hle]
  · intro hp
    simp [State.view_timer, hp]

/-- C9 witness: a running state with anchor 0 viewed at time 5. -/
theorem tick_pure_witness :
    State.update ⟨false, 0, []⟩ 5 Message.Refresh = (⟨false, 0, []⟩ : State) ∧
    State.view_timer ⟨false, 0, []⟩ defaultWarnSettings 5
      = some (TimerWidget.timeButton (format_text (5 - 0) false)
          (highlight_col defaultWarnSettings (5 - 0))) :=
  ⟨(tick_pure ⟨false, 0, []⟩ defaultWarnSettings 5).1,
   (tick_pure ⟨false, 0, []⟩ defaultWarnSettings 5).2.1 rfl (by decide)⟩

/-- C10: with `warn_after = 0` and `danger_after > 0` the disabled branch is
not taken — positive seconds up to `danger_after` are yellow, zero seconds
green, never black; and with `danger_after < warn_after` the red check wins
for any seconds above `danger_after`. -/
theorem highlight_col_edge_thresholds (ws : WarnSettings) (s : Nat) :
    (ws.warn_after = 0 → 0 < ws.danger_after →
      (0 < s → s ≤ ws.danger_after → highlight_col ws s = Color.from_rgb8 255 255 0) ∧
      (s = 0 → highlight_col ws s = Color.from_rgb8 0 255 0) ∧
      highlight_col ws s ≠ Color.from_rgb8 0 0 0) ∧
    (ws.danger_after < ws.warn_after → ws.danger_after < s →
      highlight_col ws s = Color.from_rgb8 255 0 0) := by
  constructor
  · intro hw hd
    refine ⟨?_, ?_, ?_⟩
    · intro hs hsd
      unfold highlight_col
      split_ifs <;> first | rfl | (exfalso; omega)
    · intro hs
      unfold highlight_col
      split_ifs <;> first | rfl | (exfalso; omega)
    · unfold highlight_col
      split_ifs <;> first | decide | (exfalso; omega)
  · intro hdw hds
    unfold highlight_col
    split_ifs <;> first | rfl | (exfalso; omega)

/-- C10 witness: warn 0 / danger 10 at 5 seconds is yellow; warn 10 /
danger 3 at 5 seconds is red. -/
theorem highlight_col_edge_thresholds_witness :
    highlight_col ⟨0, 10⟩ 5 = Color.from_rgb8 255 255 0 ∧
    highlight_col ⟨10, 3⟩ 5 = Color.from_rgb8 255 0 0 :=
  ⟨((highlight_col_edge_thresholds ⟨0, 10⟩ 5).1 rfl (by decide)).1 (by decide) (by decide),
   (highlight_col_edge_thresholds ⟨10, 3⟩ 5).2 (by decide) (by decide)⟩
